import Mathlib

/-!
Verification of the wazero store/memory core and stdio adapters.

The store and memory implementation (package wasm) is exercised by the
repository's tests; its operations are modelled here from the spec,
constrained by those tests.  The stdio adapters are translated directly
from src/internal/sys/stdio.go.
-/

namespace Wazero

/-- One WebAssembly linear-memory page is 65536 bytes (fixed). -/
def PageSize : Nat := 65536

/-- Value types appearing in function signatures. -/
inductive ValueType where
  | i32
  | i64
  | f32
  | f64
deriving DecidableEq

/-- Modelled from the spec: memory limits (min and optional max page count)
of a memory-section entry (LimitsType). -/
structure LimitsType where
  Min : Nat
  Max : Option Nat := none
deriving DecidableEq

/-- Modelled from the spec: a function signature from the type section. -/
structure FunctionType where
  Params : List ValueType := []
  Results : List ValueType := []
deriving DecidableEq

/-- Modelled from the spec: the optional name section, a sparse
index-to-name mapping for functions (NameMap as an association list). -/
structure NameSection where
  FunctionNames : List (Nat × String) := []
deriving DecidableEq

/-- Modelled from the spec: a decoded, validated module definition with its
type, function, code, memory and optional name sections.  A code body is a
byte list. -/
structure Module where
  TypeSection : List FunctionType := []
  FunctionSection : List Nat := []
  CodeSection : List (List Nat) := []
  MemorySection : List LimitsType := []
  NameSection : Option Wazero.NameSection := none

/-- Modelled from the spec: a linear-memory instance, a contiguous byte
buffer (bytes as naturals below 256) plus the declared page limits.
Invariant at creation: Buffer length = Min * PageSize. -/
structure MemoryInstance where
  Buffer : List Nat
  Min : Nat := 0
  Max : Option Nat := none
deriving DecidableEq

/-- Modelled from the spec: ValidateAddrRange(offset, length) is true iff
the range fits inside the buffer, computed without any wrapping: the offset
falls strictly below the buffer length and the length fits in the remaining
space.  The subtraction form never overflows, so a huge length is rejected
rather than wrapped; the repository's own test pins the value at
(len(Buffer), 0) to false, which this form satisfies. -/
def MemoryInstance.ValidateAddrRange (m : MemoryInstance) (offset : Nat) (length : Nat) : Bool :=
  decide (offset < m.Buffer.length) && decide (length ≤ m.Buffer.length - offset)

/-- Little-endian four-byte encoding of a 32-bit value, modelling
binary.LittleEndian.PutUint32. -/
def leUint32 (v : Nat) : List Nat :=
  [v % 256, v / 256 % 256, v / 65536 % 256, v / 16777216 % 256]

/-- Modelled from the spec: PutUint32 first validates the 4-byte range and,
only when valid, writes the little-endian encoding of v at offset; on
failure it reports false and leaves the buffer untouched.  The Go method
mutates the receiver, modelled here as returning the post-state. -/
def MemoryInstance.PutUint32 (m : MemoryInstance) (offset : Nat) (v : Nat) : Bool × MemoryInstance :=
  if m.ValidateAddrRange offset 4 then
    (true, { m with Buffer := m.Buffer.take offset ++ leUint32 v ++ m.Buffer.drop (offset + 4) })
  else
    (false, m)

/-- Little-endian 32-bit decode of the four buffer bytes at offset,
modelling binary.LittleEndian.Uint32(Buffer[offset:offset+4]). -/
def getUint32LE (buf : List Nat) (offset : Nat) : Nat :=
  buf.getD offset 0 + 256 * buf.getD (offset + 1) 0 +
    65536 * buf.getD (offset + 2) 0 + 16777216 * buf.getD (offset + 3) 0

/-- Modelled from the spec: buildMemoryInstances allocates a zero-filled
buffer of limits.Min * PageSize bytes when the module declares a memory
section; with no memory section the instance gets no memory. -/
def buildMemoryInstances (mod : Module) : Option MemoryInstance :=
  match mod.MemorySection with
  | [] => none
  | l :: _ => some { Buffer := List.replicate (l.Min * PageSize) 0, Min := l.Min, Max := l.Max }

/-- The Min=100 module used by the repository's memory tests. -/
def module100 : Module := { MemorySection := [{ Min := 100 }] }

/-- The memory instance buildMemoryInstances yields for module100. -/
def mem100 : MemoryInstance := { Buffer := List.replicate (100 * PageSize) 0, Min := 100 }

/-- An eight-byte memory used as a small concrete witness input. -/
def mem8 : MemoryInstance := { Buffer := List.replicate 8 0 }

/-- ValidateAddrRange in propositional form: true exactly when the offset is
inside the buffer and the whole range fits. -/
theorem validateAddrRange_true_iff (m : MemoryInstance) (offset length : Nat) :
    m.ValidateAddrRange offset length = true ↔
      offset < m.Buffer.length ∧ offset + length ≤ m.Buffer.length := by
  simp only [MemoryInstance.ValidateAddrRange, Bool.and_eq_true, decide_eq_true_eq]
  omega

/-- ValidateAddrRange returns false exactly when the range does not fit. -/
theorem validateAddrRange_false_iff (m : MemoryInstance) (offset length : Nat) :
    m.ValidateAddrRange offset length = false ↔
      ¬(offset < m.Buffer.length ∧ offset + length ≤ m.Buffer.length) := by
  rw [Bool.eq_false_iff, Ne, validateAddrRange_true_iff]

/-- The buffer built for the Min=100 memory section has 100 pages of bytes. -/
theorem mem100_length : mem100.Buffer.length = 100 * PageSize := by
  simp [mem100]

/-- C1 counterexample: on the 100-page memory built by buildMemoryInstances,
the call with offset = len(Buffer) and length 0 returns false even though
offset + length ≤ len(Buffer), refuting the claimed biconditional and its
stated instance at a concrete input. -/
theorem validateAddrRange_end_zero_cex :
    buildMemoryInstances module100 = some mem100
  ∧ 100 * PageSize + 0 ≤ mem100.Buffer.length
  ∧ mem100.ValidateAddrRange (100 * PageSize) 0 = false := by
  refine ⟨rfl, ?_, ?_⟩
  · rw [mem100_length]
    omega
  · rw [validateAddrRange_false_iff, mem100_length]
    omega

/-- C1 (amended): ValidateAddrRange(offset, length) returns true iff
offset < len(Buffer) and offset + length ≤ len(Buffer), with no wrapping in
the computation; in particular the call with offset = len(Buffer) and
length 0 returns false, not true. -/
theorem validateAddrRange_spec (m : MemoryInstance) (offset length : Nat) :
    (m.ValidateAddrRange offset length = true ↔
      offset < m.Buffer.length ∧ offset + length ≤ m.Buffer.length)
  ∧ m.ValidateAddrRange m.Buffer.length 0 = false := by
  refine ⟨validateAddrRange_true_iff m offset length, ?_⟩
  rw [validateAddrRange_false_iff]
  omega

/-- C2: the exact five ValidateAddrRange values of the repository's test for
the memory built from the Min=100 memory section. -/
theorem validateAddrRange_min100 :
    buildMemoryInstances module100 = some mem100
  ∧ mem100.ValidateAddrRange 0 0 = true
  ∧ mem100.ValidateAddrRange 0 (100 * PageSize) = true
  ∧ mem100.ValidateAddrRange 0 (100 * PageSize + 1) = false
  ∧ mem100.ValidateAddrRange 1 (100 * PageSize) = false
  ∧ mem100.ValidateAddrRange (100 * PageSize) 0 = false := by
  refine ⟨rfl, ?_, ?_, ?_, ?_, ?_⟩
  · rw [validateAddrRange_true_iff, mem100_length, PageSize]
    omega
  · rw [validateAddrRange_true_iff, mem100_length, PageSize]
    omega
  · rw [validateAddrRange_false_iff, mem100_length, PageSize]
    omega
  · rw [validateAddrRange_false_iff, mem100_length, PageSize]
    omega
  · rw [validateAddrRange_false_iff, mem100_length, PageSize]
    omega

/-- PutUint32 reports exactly the outcome of the ValidateAddrRange check
for width 4. -/
theorem putUint32_fst (m : MemoryInstance) (offset v : Nat) :
    (m.PutUint32 offset v).1 = m.ValidateAddrRange offset 4 := by
  unfold MemoryInstance.PutUint32
  split <;> simp_all

/-- A failing PutUint32 returns the memory unchanged. -/
theorem putUint32_snd_of_invalid (m : MemoryInstance) (offset v : Nat)
    (h : m.ValidateAddrRange offset 4 = false) :
    (m.PutUint32 offset v).2 = m := by
  unfold MemoryInstance.PutUint32
  rw [h]
  simp

/-- A successful PutUint32 replaces the four bytes at offset by the
little-endian encoding of the value. -/
theorem putUint32_snd_of_valid (m : MemoryInstance) (offset v : Nat)
    (h : m.ValidateAddrRange offset 4 = true) :
    (m.PutUint32 offset v).2.Buffer
      = m.Buffer.take offset ++ leUint32 v ++ m.Buffer.drop (offset + 4) := by
  unfold MemoryInstance.PutUint32
  rw [h]
  simp

/-- PutUint32 never changes the buffer length. -/
theorem putUint32_length (m : MemoryInstance) (offset v : Nat) :
    (m.PutUint32 offset v).2.Buffer.length = m.Buffer.length := by
  cases h : m.ValidateAddrRange offset 4 with
  | false => rw [putUint32_snd_of_invalid m offset v h]
  | true =>
    have hb := (validateAddrRange_true_iff m offset 4).1 h
    rw [putUint32_snd_of_valid m offset v h]
    simp only [List.length_append, List.length_take, List.length_drop, leUint32,
      List.length_cons, List.length_nil]
    omega

/-- C3: PutUint32 performs exactly the ValidateAddrRange(offset, 4) check
before touching the buffer, succeeds precisely when the range
[offset, offset+4) fits inside the buffer, preserves the buffer length
(never touching a byte outside the allocation), succeeds at the last valid
offset len(Buffer)-4 and fails at len(Buffer)-3. -/
theorem putUint32_bounds (m : MemoryInstance) (offset v : Nat)
    (h : 4 ≤ m.Buffer.length) :
    ((m.PutUint32 offset v).1 = m.ValidateAddrRange offset 4)
  ∧ ((m.PutUint32 offset v).1 = true ↔ offset + 4 ≤ m.Buffer.length)
  ∧ ((m.PutUint32 offset v).2.Buffer.length = m.Buffer.length)
  ∧ (m.PutUint32 (m.Buffer.length - 4) v).1 = true
  ∧ (m.PutUint32 (m.Buffer.length - 3) v).1 = false := by
  refine ⟨putUint32_fst m offset v, ?_, putUint32_length m offset v, ?_, ?_⟩
  · rw [putUint32_fst, validateAddrRange_true_iff]
    omega
  · rw [putUint32_fst, validateAddrRange_true_iff]
    omega
  · rw [putUint32_fst, validateAddrRange_false_iff]
    omega

/-- C3 witness: the bounds theorem instantiated on the concrete eight-byte
memory at offset 0 with value 0xfffffffe. -/
theorem putUint32_bounds_witness :
    4 ≤ mem8.Buffer.length
  ∧ (((mem8.PutUint32 0 4294967294).1 = mem8.ValidateAddrRange 0 4)
    ∧ ((mem8.PutUint32 0 4294967294).1 = true ↔ 0 + 4 ≤ mem8.Buffer.length)
    ∧ ((mem8.PutUint32 0 4294967294).2.Buffer.length = mem8.Buffer.length)
    ∧ (mem8.PutUint32 (mem8.Buffer.length - 4) 4294967294).1 = true
    ∧ (mem8.PutUint32 (mem8.Buffer.length - 3) 4294967294).1 = false) :=
  ⟨by decide, putUint32_bounds mem8 0 4294967294 (by decide)⟩

/-- C4: when PutUint32 reports failure the memory is exactly as it was, and
any number of repeated identical failed writes still leaves it unchanged. -/
theorem putUint32_fail_no_write (m : MemoryInstance) (offset v k : Nat)
    (h : (m.PutUint32 offset v).1 = false) :
    (m.PutUint32 offset v).2 = m
  ∧ (fun mm : MemoryInstance => (mm.PutUint32 offset v).2)^[k] m = m := by
  rw [putUint32_fst] at h
  have h1 : (m.PutUint32 offset v).2 = m := putUint32_snd_of_invalid m offset v h
  exact ⟨h1, Function.iterate_fixed h1 k⟩

/-- C4 witness: a write of 4 bytes at offset 6 of the eight-byte memory
fails, and neither one nor three repetitions of it change the memory. -/
theorem putUint32_fail_no_write_witness :
    (mem8.PutUint32 6 5).1 = false
  ∧ ((mem8.PutUint32 6 5).2 = mem8
    ∧ (fun mm : MemoryInstance => (mm.PutUint32 6 5).2)^[3] mem8 = mem8) :=
  ⟨by decide, putUint32_fail_no_write mem8 6 5 3 (by decide)⟩

/-- Reading an element right of an appended prefix skips the prefix. -/
theorem getD_append_add (l₁ l₂ : List Nat) (i d : Nat) :
    (l₁ ++ l₂).getD (l₁.length + i) d = l₂.getD i d := by
  induction l₁ with
  | nil => simp
  | cons a l ih =>
    simpa [List.length_cons, Nat.succ_add] using ih

/-- C5: a successful PutUint32 round-trips: the four bytes written at offset
decode under little-endian byte order back to exactly the value written. -/
theorem putUint32_roundTrip (m : MemoryInstance) (offset v : Nat)
    (h : offset + 4 ≤ m.Buffer.length) (hv : v < 4294967296) :
    (m.PutUint32 offset v).1 = true
  ∧ getUint32LE (m.PutUint32 offset v).2.Buffer offset = v := by
  have hval : m.ValidateAddrRange offset 4 = true := by
    rw [validateAddrRange_true_iff]
    omega
  have htake : (m.Buffer.take offset).length = offset := by
    simp only [List.length_take]
    omega
  have hbuf := putUint32_snd_of_valid m offset v hval
  refine ⟨by rw [putUint32_fst, hval], ?_⟩
  have key : ∀ i : Nat, (m.PutUint32 offset v).2.Buffer.getD (offset + i) 0
      = (leUint32 v ++ m.Buffer.drop (offset + 4)).getD i 0 := by
    intro i
    have hgen := getD_append_add (m.Buffer.take offset)
      (leUint32 v ++ m.Buffer.drop (offset + 4)) i 0
    rw [htake] at hgen
    rw [hbuf, List.append_assoc]
    exact hgen
  have k0 := key 0
  have k1 := key 1
  have k2 := key 2
  have k3 := key 3
  simp only [leUint32, List.cons_append, List.getD_cons_zero, List.getD_cons_succ,
    List.nil_append] at k0 k1 k2 k3
  simp only [getUint32LE, Nat.add_zero] at k0 ⊢
  rw [k0, k1, k2, k3]
  omega

/-- C5 witness: the round trip instantiated at offset 2 of the eight-byte
memory with value 0xfffffffe. -/
theorem putUint32_roundTrip_witness :
    (2 + 4 ≤ mem8.Buffer.length ∧ 4294967294 < 4294967296)
  ∧ ((mem8.PutUint32 2 4294967294).1 = true
    ∧ getUint32LE (mem8.PutUint32 2 4294967294).2.Buffer 2 = 4294967294) :=
  ⟨⟨by decide, by decide⟩, putUint32_roundTrip mem8 2 4294967294 (by decide) (by decide)⟩

/-- Kinds of exportable module elements. -/
inductive ExternKind where
  | func
  | table
  | mem
  | global
deriving DecidableEq

/-- Modelled from the spec: an element of a module's export mapping. -/
structure ExportInstance where
  Kind : ExternKind
  Index : Nat
deriving DecidableEq

/-- Modelled from the spec: FunctionInstance binds a function's declared
type, its owning module (by name, standing in for the Go pointer) and a
resolved debug name. -/
structure FunctionInstance where
  FuncType : FunctionType
  ModuleName : String
  Name : String
deriving DecidableEq

/-- Modelled from the spec: the live runtime image of one module.  Exports
is an association list wrapped in Option so that the Go nil map (none) stays
distinguishable from the freshly initialized empty map (some []). -/
structure ModuleInstance where
  Name : String
  Functions : List FunctionInstance := []
  Memory : Option MemoryInstance := none
  Exports : Option (List (String × ExportInstance)) := none
deriving DecidableEq

/-- Modelled from the spec: the Store's name-to-instance registry, an
association list standing in for the Go map. -/
structure Store where
  ModuleInstances : List (String × ModuleInstance) := []
deriving DecidableEq

/-- Modelled from the spec: idempotent get-or-create.  An existing instance
for the name is returned as is; otherwise a fresh instance with an
initialized empty (non-nil) export mapping is registered under the name and
returned.  The Go method mutates the store, modelled here by also returning
the post-state store. -/
def Store.getModuleInstance (s : Store) (name : String) : ModuleInstance × Store :=
  match s.ModuleInstances.lookup name with
  | some mi => (mi, s)
  | none =>
    let mi : ModuleInstance := { Name := name, Exports := some [] }
    (mi, { ModuleInstances := (name, mi) :: s.ModuleInstances })

/-- C6: get-or-create is an idempotent registration: on a fresh name the
call returns a new instance with a non-nil empty export map and registers it
under the name; the next call with the same name returns the identical
instance and the identical store, and entries under other names are
preserved. -/
theorem getModuleInstance_get_or_create (s : Store) (n other : String)
    (hfresh : s.ModuleInstances.lookup n = none) (hne : other ≠ n) :
    (s.getModuleInstance n).1.Exports = some []
  ∧ (s.getModuleInstance n).2.ModuleInstances.lookup n = some (s.getModuleInstance n).1
  ∧ (s.getModuleInstance n).2.getModuleInstance n
      = ((s.getModuleInstance n).1, (s.getModuleInstance n).2)
  ∧ (s.getModuleInstance n).2.ModuleInstances.lookup other = s.ModuleInstances.lookup other := by
  have hb : (other == n) = false := beq_eq_false_iff_ne.mpr hne
  simp only [Store.getModuleInstance, hfresh]
  refine ⟨trivial, ?_, ?_, ?_⟩
  · simp [List.lookup]
  · simp [List.lookup]
  · simp [List.lookup, hb]

/-- C6 witness: the get-or-create theorem instantiated on the empty store
with the names of the repository's test. -/
theorem getModuleInstance_get_or_create_witness :
    ((Store.getModuleInstance { } "test").1.Exports = some []
  ∧ (Store.getModuleInstance { } "test").2.ModuleInstances.lookup "test"
      = some (Store.getModuleInstance { } "test").1
  ∧ (Store.getModuleInstance { } "test").2.getModuleInstance "test"
      = ((Store.getModuleInstance { } "test").1, (Store.getModuleInstance { } "test").2)
  ∧ (Store.getModuleInstance { } "test").2.ModuleInstances.lookup "other"
      = (Store.ModuleInstances { }).lookup "other") :=
  getModuleInstance_get_or_create { } "test" "other" rfl (by decide)

/-- Modelled from the spec: resolve a function's debug name from the
optional name section's function-name table; an absent entry yields the
sentinel name "unknown". -/
def funcName (ns : Option NameSection) (i : Nat) : String :=
  match ns with
  | none => "unknown"
  | some nsec => (nsec.FunctionNames.lookup i).getD "unknown"

/-- Modelled from the spec: the builder loop of buildFunctionInstances,
walking the function section with the running function index i; a type
index outside the type section is a build failure. -/
def buildFunctionInstancesAux (types : List FunctionType) (ns : Option NameSection)
    (owner : String) : Nat → List Nat → Except String (List FunctionInstance)
  | _, [] => Except.ok []
  | i, t :: rest =>
    match types.get? t with
    | none => Except.error "function type index out of bounds"
    | some ft =>
      match buildFunctionInstancesAux types ns owner (i + 1) rest with
      | Except.error e => Except.error e
      | Except.ok fs =>
        Except.ok ({ FuncType := ft, ModuleName := owner, Name := funcName ns i } :: fs)

/-- Modelled from the spec: buildFunctionInstances constructs one
FunctionInstance per entry of the function section, in declaration order,
resolving each type from the type section and each name from the optional
name section. -/
def buildFunctionInstances (mod : Module) (owner : String) :
    Except String (List FunctionInstance) :=
  buildFunctionInstancesAux mod.TypeSection mod.NameSection owner 0 mod.FunctionSection

/-- The five-function module of the repository's function-name test. -/
def moduleFive : Module :=
  { TypeSection := [{}]
    FunctionSection := [0, 0, 0, 0, 0]
    CodeSection := [[11], [11], [11], [11], [11]]
    NameSection := some { FunctionNames := [(1, "two"), (3, "four"), (4, "five")] } }

/-- The function instances built for moduleFive. -/
def fiveInstances : List FunctionInstance :=
  [{ FuncType := {}, ModuleName := "test", Name := "unknown" },
   { FuncType := {}, ModuleName := "test", Name := "two" },
   { FuncType := {}, ModuleName := "test", Name := "unknown" },
   { FuncType := {}, ModuleName := "test", Name := "four" },
   { FuncType := {}, ModuleName := "test", Name := "five" }]

/-- A successful builder run yields exactly the names resolved at the
consecutive function indices starting at i. -/
theorem buildFunctionInstancesAux_names (types : List FunctionType)
    (ns : Option NameSection) (owner : String) (l : List Nat) :
    ∀ i fs, buildFunctionInstancesAux types ns owner i l = Except.ok fs →
      fs.map FunctionInstance.Name = (List.range' i l.length).map (funcName ns) := by
  induction l with
  | nil =>
    intro i fs h
    simp only [buildFunctionInstancesAux] at h
    cases h
    simp
  | cons t rest ih =>
    intro i fs h
    simp only [buildFunctionInstancesAux] at h
    cases htype : types.get? t with
    | none => rw [htype] at h; cases h
    | some ft =>
      rw [htype] at h
      cases haux : buildFunctionInstancesAux types ns owner (i + 1) rest with
      | error e => rw [haux] at h; cases h
      | ok fs' =>
        rw [haux] at h
        cases h
        simp only [List.map_cons, List.length_cons, List.range'_succ]
        rw [ih (i + 1) fs' haux]

/-- C7: a successful buildFunctionInstances yields one instance per declared
function, in declaration order, each named from the name section at that
function's index with the sentinel "unknown" for absent entries; on the
five-function test module the names are exactly
["unknown", "two", "unknown", "four", "five"]. -/
theorem buildFunctionInstances_names (mod : Module) (owner : String)
    (fs : List FunctionInstance)
    (h : buildFunctionInstances mod owner = Except.ok fs) :
    fs.length = mod.FunctionSection.length
  ∧ fs.map FunctionInstance.Name
      = (List.range mod.FunctionSection.length).map (funcName mod.NameSection)
  ∧ (buildFunctionInstances moduleFive "test").map (List.map FunctionInstance.Name)
      = Except.ok ["unknown", "two", "unknown", "four", "five"] := by
  have hnames := buildFunctionInstancesAux_names mod.TypeSection mod.NameSection owner
    mod.FunctionSection 0 fs h
  refine ⟨?_, ?_, rfl⟩
  · have := congrArg List.length hnames
    simpa using this
  · rw [hnames, List.range_eq_range']

/-- C7 witness: the naming theorem instantiated on the five-function test
module. -/
theorem buildFunctionInstances_names_witness :
    fiveInstances.length = moduleFive.FunctionSection.length
  ∧ fiveInstances.map FunctionInstance.Name
      = (List.range moduleFive.FunctionSection.length).map (funcName moduleFive.NameSection)
  ∧ (buildFunctionInstances moduleFive "test").map (List.map FunctionInstance.Name)
      = Except.ok ["unknown", "two", "unknown", "four", "five"] :=
  buildFunctionInstances_names moduleFive "test" fiveInstances rfl

/-- C8: buildMemoryInstances attaches a memory whose buffer holds exactly
limits.Min * PageSize bytes when the module declares a memory section, and
no memory at all when the module has none. -/
theorem buildMemoryInstances_size (mod : Module) :
    (buildMemoryInstances mod).map (fun mem => mem.Buffer.length)
      = mod.MemorySection.head?.map (fun l => l.Min * PageSize)
  ∧ (buildMemoryInstances mod = none ↔ mod.MemorySection = []) := by
  cases hms : mod.MemorySection with
  | nil => simp [buildMemoryInstances, hms]
  | cons l rest => simp [buildMemoryInstances, hms]

/-- POSIX-flavoured error number (experimentalsys.Errno); zero is success. -/
abbrev Errno := Nat

/-- The WASI errno value ENOSYS, returned by unimplemented file methods. -/
def ENOSYS : Errno := 52

/-- The Stat_t fields the stdio files populate (sys.Stat_t). -/
structure Stat_t where
  Mode : Nat
  Nlink : Nat
deriving DecidableEq

/-- Modelled from the spec: the device-mode file mode used for stdio device
files (the fs.ModeDevice bit). -/
def modeDevice : Nat := 67108864

/-- The file operations of fsapi.File implemented by the stdio files, as a
record of pure functions: every one of these operations is stateless in
src/internal/sys/stdio.go.  A buffer is a byte list, PollRead takes the
timeout in milliseconds. -/
structure FileOps where
  Read : List Nat → Nat × Errno
  PollRead : Int → Bool × Errno
  Write : List Nat → Nat × Errno
  Stat : Stat_t × Errno
  IsDir : Bool × Errno
  Close : Errno

/-- Modelled from the spec: fsapi.UnimplementedFile, whose unsupported
methods return ENOSYS (Close returns zero even when unimplemented, per the
fsapi.File contract). -/
def UnimplementedFile : FileOps where
  Read := fun _ => (0, ENOSYS)
  PollRead := fun _ => (false, ENOSYS)
  Write := fun _ => (0, ENOSYS)
  Stat := ({ Mode := 0, Nlink := 0 }, ENOSYS)
  IsDir := (false, ENOSYS)
  Close := 0

/-- noopStdioFile embeds UnimplementedFile and overrides Stat (device mode,
one link, success), IsDir (not a directory, success) and Close (success),
per src/internal/sys/stdio.go. -/
def noopStdioFile : FileOps :=
  { UnimplementedFile with
    Stat := ({ Mode := modeDevice, Nlink := 1 }, 0)
    IsDir := (false, 0)
    Close := 0 }

/-- noopStdinFile embeds noopStdioFile and overrides Read (always EOF: zero
bytes read, zero errno) and PollRead (always ready to read nothing), per
src/internal/sys/stdio.go. -/
def noopStdinFile : FileOps :=
  { noopStdioFile with
    Read := fun _ => (0, 0)
    PollRead := fun _ => (true, 0) }

/-- noopStdoutFile embeds noopStdioFile and overrides Write to discard all
bytes successfully, like io.Discard, per src/internal/sys/stdio.go. -/
def noopStdoutFile : FileOps :=
  { noopStdioFile with Write := fun buf => (buf.length, 0) }

/-- C9: with no caller-supplied stream, the noop stdin file reads zero bytes
with zero errno on every buffer and polls ready with zero errno for every
timeout, and the noop stdout file reports all bytes written with zero errno
on every buffer. -/
theorem noopStdio_read_write (buf out : List Nat) (t : Int) :
    noopStdinFile.Read buf = (0, 0)
  ∧ noopStdinFile.PollRead t = (true, 0)
  ∧ noopStdoutFile.Write out = (out.length, 0) :=
  ⟨rfl, rfl, rfl⟩

/-- C10: every noop stdio file answers IsDir with (false, 0), Stat with a
device-mode Stat_t with Nlink 1 and zero errno, and Close with zero errno;
none of them ever takes a directory or failure path. -/
theorem noopStdio_metadata :
    (noopStdioFile.IsDir = (false, 0)
      ∧ noopStdioFile.Stat = ({ Mode := modeDevice, Nlink := 1 }, 0)
      ∧ noopStdioFile.Close = 0)
  ∧ (noopStdinFile.IsDir = (false, 0)
      ∧ noopStdinFile.Stat = ({ Mode := modeDevice, Nlink := 1 }, 0)
      ∧ noopStdinFile.Close = 0)
  ∧ (noopStdoutFile.IsDir = (false, 0)
      ∧ noopStdoutFile.Stat = ({ Mode := modeDevice, Nlink := 1 }, 0)
      ∧ noopStdoutFile.Close = 0) :=
  ⟨⟨rfl, rfl, rfl⟩, ⟨rfl, rfl, rfl⟩, ⟨rfl, rfl, rfl⟩⟩

end Wazero
